import Mathlib

/-!
Verification of the Constellation satellite core (Python implementation)
against its natural-language specification.

The definitions below are a shallow embedding of the Python sources under
src/python/constellation/.  Pure data types and the state-mutating methods
are translated into Lean functions over explicit state records; Python
exceptions are modelled by an explicit result type.  Where a definition is
taken from a module of the repository that is not part of the provided
sources (core/chirp.py, core/configuration.py, core/fsm.py), its doc
comment starts with "Modelled from the spec:" and names the missing piece.
-/

/- ------------------------------------------------------------------ -/
/- CHIRP data model (core/broadcastmanager.py; message shape from spec §3) -/
/- ------------------------------------------------------------------ -/

/-- Modelled from the spec: `ServiceIdentifier` enumeration of well-known
service kinds (core/chirp.py is not under src/); spec §3. -/
inductive CHIRPServiceIdentifier
  | CONTROL
  | HEARTBEAT
  | MONITORING
  | DATA
deriving DecidableEq, Repr

/-- Modelled from the spec: CHIRP message types (core/chirp.py is not under
src/); spec §6 gives codes REQUEST=1, OFFER=2, DEPART=3. -/
inductive CHIRPMessageType
  | REQUEST
  | OFFER
  | DEPART
deriving DecidableEq, Repr

/-- Modelled from the spec: `CHIRPMessage` record
(host_uuid, group, service_id, msg_type, port, from_address), spec §3.
The group check happens in the beacon before `_run` sees the message, so the
group field is omitted here; UUIDs are modelled as naturals. -/
structure CHIRPMessage where
  host_uuid : Nat
  serviceid : CHIRPServiceIdentifier
  msgtype : CHIRPMessageType
  from_address : String
  port : Nat
deriving DecidableEq, Repr

/-- `DiscoveredService` from core/broadcastmanager.py: record of
(host_uuid, serviceid, address, port, alive). -/
structure DiscoveredService where
  host_uuid : Nat
  serviceid : CHIRPServiceIdentifier
  address : String
  port : Nat
  alive : Bool
deriving DecidableEq, Repr

/-- `DiscoveredService.__eq__`: identity is the triple
(host_uuid, serviceid, port); address and alive do not take part. -/
def DiscoveredService.eqPy (a b : DiscoveredService) : Bool :=
  decide (a.host_uuid = b.host_uuid ∧ a.serviceid = b.serviceid ∧ a.port = b.port)

/-- Python `x in list` membership, which compares with `x.__eq__(element)`. -/
def listContainsPy (l : List DiscoveredService) (s : DiscoveredService) : Bool :=
  l.any (fun t => s.eqPy t)

/-- Python `list.remove(x)`: drop the first element equal to `x`
(via `DiscoveredService.__eq__`); `none` models the raised ValueError. -/
def listRemoveFirstPy (l : List DiscoveredService) (s : DiscoveredService) :
    Option (List DiscoveredService) :=
  match l with
  | [] => none
  | t :: rest =>
    if t.eqPy s then some rest
    else (listRemoveFirstPy rest s).map (fun r => t :: r)

/-- Number of cache entries matching `s` by the Python identity relation. -/
def countMatching (l : List DiscoveredService) (s : DiscoveredService) : Nat :=
  (l.filter (fun t => s.eqPy t)).length

/-- Lookup in a Python dict modelled as an association list. -/
def dictLookup {α β : Type} [DecidableEq α] (d : List (α × β)) (k : α) : Option β :=
  match d with
  | [] => none
  | (k2, v) :: rest => if k2 = k then some v else dictLookup rest k

/-- Assignment `d[k] = v` in a Python dict modelled as an association list. -/
def dictSet {α β : Type} [DecidableEq α] (d : List (α × β)) (k : α) (v : β) :
    List (α × β) :=
  match d with
  | [] => [(k, v)]
  | (k2, v2) :: rest =>
    if k2 = k then (k, v) :: rest else (k2, v2) :: dictSet rest k v

/-- State of a `CHIRPBroadcaster` (core/broadcastmanager.py).  Callbacks are
opaque callables, modelled by numeric handles; the task queue holds
(callback, argument-list) pairs; log warnings are recorded as a list. -/
structure CHIRPBroadcaster where
  registered_services : List (Nat × CHIRPServiceIdentifier)
  discovered_services : List DiscoveredService
  chirp_callbacks : List (CHIRPServiceIdentifier × Nat)
  task_queue : List (Nat × List DiscoveredService)
  log_warnings : List String
deriving DecidableEq, Repr

/-- The `DiscoveredService(msg.host_uuid, msg.serviceid, msg.from_address,
msg.port)` construction used by `_discover_service` and `_depart_service`
(alive defaults to true). -/
def serviceOf (msg : CHIRPMessage) : DiscoveredService :=
  { host_uuid := msg.host_uuid
    serviceid := msg.serviceid
    address := msg.from_address
    port := msg.port
    alive := true }

/-- `CHIRPBroadcaster.get_discovered`: all cached services with the given
service identifier. -/
def get_discovered (b : CHIRPBroadcaster) (serviceid : CHIRPServiceIdentifier) :
    List DiscoveredService :=
  b.discovered_services.filter (fun s => decide (s.serviceid = serviceid))

/-- `CHIRPBroadcaster.register_request`: warn when overwriting, store the
callback, and enqueue one task per already-discovered matching service. -/
def register_request (b : CHIRPBroadcaster) (serviceid : CHIRPServiceIdentifier)
    (callback : Nat) : CHIRPBroadcaster :=
  { b with
    log_warnings :=
      if (dictLookup b.chirp_callbacks serviceid).isSome then
        b.log_warnings ++ ["Overwriting CHIRP callback"]
      else b.log_warnings
    chirp_callbacks := dictSet b.chirp_callbacks serviceid callback
    task_queue :=
      b.task_queue ++ (get_discovered b serviceid).map (fun known => (callback, [known])) }

/-- `CHIRPBroadcaster._discover_service`: ignore an OFFER whose service is
already cached (by identity); otherwise enqueue the callback if one is
registered and append the service to the cache. -/
def _discover_service (b : CHIRPBroadcaster) (msg : CHIRPMessage) : CHIRPBroadcaster :=
  if listContainsPy b.discovered_services (serviceOf msg) then b
  else
    match dictLookup b.chirp_callbacks msg.serviceid with
    | some callback =>
      { b with
        task_queue := b.task_queue ++ [(callback, [serviceOf msg])]
        discovered_services := b.discovered_services ++ [serviceOf msg] }
    | none =>
      { b with discovered_services := b.discovered_services ++ [serviceOf msg] }

/-- The removed copy as `_depart_service` hands it to the callback: the
constructed service with alive flipped to false. -/
def departedOf (msg : CHIRPMessage) : DiscoveredService :=
  { serviceOf msg with alive := false }

/-- `CHIRPBroadcaster._depart_service`: remove the first cache entry equal to
the constructed service; when present, flip alive to false on the removed
copy and enqueue the callback if registered; a ValueError from
`list.remove` is caught and leaves the state untouched. -/
def _depart_service (b : CHIRPBroadcaster) (msg : CHIRPMessage) : CHIRPBroadcaster :=
  match listRemoveFirstPy b.discovered_services (serviceOf msg) with
  | none => b
  | some rest =>
    match dictLookup b.chirp_callbacks msg.serviceid with
    | some callback =>
      { b with
        discovered_services := rest
        task_queue := b.task_queue ++ [(callback, [departedOf msg])] }
    | none => { b with discovered_services := rest }

/-- One iteration of the `CHIRPBroadcaster._run` listener body for a received
message: REQUEST answers with offers (no state change), OFFER discovers,
DEPART with non-zero port departs. -/
def handleMessage (b : CHIRPBroadcaster) (msg : CHIRPMessage) : CHIRPBroadcaster :=
  match msg.msgtype with
  | .REQUEST => b
  | .OFFER => _discover_service b msg
  | .DEPART => if msg.port ≠ 0 then _depart_service b msg else b

/- ------------------------------------------------------------------ -/
/- CSCP data model and command dispatch (core/commandmanager.py, cscp.py) -/
/- ------------------------------------------------------------------ -/

/-- `CSCPMessageVerb` from cscp.py. -/
inductive CSCPMessageVerb
  | REQUEST
  | SUCCESS
  | NOTIMPLEMENTED
  | INCOMPLETE
  | INVALID
  | UNKNOWN
  | ERROR
deriving DecidableEq, Repr

/-- Kinds of Python exceptions that the satellite code distinguishes.
OtherError stands for any exception outside the named ones. -/
inductive PyExc
  | TransitionNotAllowed
  | AttributeError
  | NotImplementedError
  | TypeError
  | ValueError
  | TimeoutError
  | AssertionError
  | RuntimeError
  | KeyError
  | OtherError
deriving DecidableEq, Repr

/-- Result of running a piece of Python code: a value, or a propagating
exception of some kind. -/
inductive PyResult (α : Type)
  | ok (val : α)
  | raised (exc : PyExc)
deriving DecidableEq, Repr

/-- Outcome of invoking a CSCP command handler: it returns a
(text, payload, meta) triple whose text may be None, or it raises; the
string carried by `raises` is the Python repr of the exception. -/
inductive HandlerOutcome
  | ret (text : Option String)
  | raises (exc : PyExc) (reprStr : String)
deriving DecidableEq, Repr

/-- A received CSCP message as `_recv_cmds` sees it (the command string was
already lower-cased by `CommandTransmitter.get_message`). -/
structure IncomingRequest where
  msg_verb : CSCPMessageVerb
  msg : String
deriving DecidableEq, Repr

/-- The receiver-side context for one incoming request: the keys of the
`_cmds` registry, the result of the sibling predicate `_X_is_allowed` for
this request (`none` models an absent sibling, whose AttributeError the
code swallows), and what the handler does when invoked on this request. -/
structure CommandEnv where
  cmds : List String
  allowed : Option Bool
  outcome : HandlerOutcome
deriving DecidableEq, Repr

/-- Reply and invocation record produced by one pass of the receive loop. -/
structure DispatchResult where
  reply_text : String
  reply_verb : CSCPMessageVerb
  handler_called : Bool
deriving DecidableEq, Repr

/-- Pretty name of a verb, used in the malformed-request reply text. -/
def verbName (v : CSCPMessageVerb) : String :=
  match v with
  | .REQUEST => "REQUEST"
  | .SUCCESS => "SUCCESS"
  | .NOTIMPLEMENTED => "NOTIMPLEMENTED"
  | .INCOMPLETE => "INCOMPLETE"
  | .INVALID => "INVALID"
  | .UNKNOWN => "UNKNOWN"
  | .ERROR => "ERROR"

/-- The body of `CommandReceiver._recv_cmds` for one received message:
verb check, registry lookup, `_X_is_allowed` gate, handler invocation and
the mapping from its outcome to the reply verb and text. -/
def recv_one (env : CommandEnv) (req : IncomingRequest) : DispatchResult :=
  if req.msg_verb ≠ CSCPMessageVerb.REQUEST then
    { reply_text := "Received malformed request with msg verb: " ++ verbName req.msg_verb
      reply_verb := .INVALID
      handler_called := false }
  else if ¬ (req.msg ∈ env.cmds) then
    { reply_text := "Unknown command: " ++ req.msg
      reply_verb := .UNKNOWN
      handler_called := false }
  else if env.allowed = some false then
    { reply_text := "Command not allowed (in current state)"
      reply_verb := .INVALID
      handler_called := false }
  else
    match env.outcome with
    | .raises .AttributeError r =>
      { reply_text := "WrongImplementation: " ++ r, reply_verb := .NOTIMPLEMENTED
        handler_called := true }
    | .raises .NotImplementedError r =>
      { reply_text := "WrongImplementation: " ++ r, reply_verb := .NOTIMPLEMENTED
        handler_called := true }
    | .raises .TransitionNotAllowed r =>
      { reply_text := "Transition not allowed: " ++ r, reply_verb := .INVALID
        handler_called := true }
    | .raises .TypeError r =>
      { reply_text := "Wrong argument: " ++ r, reply_verb := .INCOMPLETE
        handler_called := true }
    | .raises .ValueError r =>
      { reply_text := "Wrong argument: " ++ r, reply_verb := .INCOMPLETE
        handler_called := true }
    | .raises _ r =>
      { reply_text := "Exception: " ++ r, reply_verb := .INVALID
        handler_called := true }
    | .ret none =>
      { reply_text := "Command returned nothing", reply_verb := .INCOMPLETE
        handler_called := true }
    | .ret (some res) =>
      { reply_text := res, reply_verb := .SUCCESS, handler_called := true }

/-- The reply-verb mapping in the words of the specification (§4.2 step 5):
text present yields SUCCESS, text None yields INCOMPLETE, a not-implemented
failure yields NOTIMPLEMENTED, a disallowed transition yields INVALID, a
wrong argument (TypeError or ValueError) yields INCOMPLETE, and any other
failure yields INVALID. -/
def claimed_verb (o : HandlerOutcome) : CSCPMessageVerb :=
  match o with
  | .ret (some _) => .SUCCESS
  | .ret none => .INCOMPLETE
  | .raises .AttributeError _ => .NOTIMPLEMENTED
  | .raises .NotImplementedError _ => .NOTIMPLEMENTED
  | .raises .TransitionNotAllowed _ => .INVALID
  | .raises .TypeError _ => .INCOMPLETE
  | .raises .ValueError _ => .INCOMPLETE
  | .raises _ _ => .INVALID

/- ------------------------------------------------------------------ -/
/- Command registry and case normalization (commandmanager.py, cscp.py) -/
/- ------------------------------------------------------------------ -/

/-- ASCII lower-casing of one character, as Python str.lower acts on the
identifier characters used in command names. -/
def pyCharLower (c : Char) : Char :=
  if 65 ≤ c.toNat ∧ c.toNat ≤ 90 then Char.ofNat (c.toNat + 32) else c

/-- Python `str.lower()` on command names. -/
def pyLower (s : String) : String :=
  String.mk (s.data.map pyCharLower)

/-- The CSCP-callable method names that `get_cscp_commands` collects from the
classes defined under src/ (CommandReceiver and the core Satellite), in the
alphabetical order of Python dir(). The names are stored exactly as the
methods are spelled in the source. -/
def src_cscp_commands : List String :=
  ["_get_commands", "get_commands", "get_name", "get_run_id", "get_version",
   "register", "shutdown"]

/-- Modelled from the spec: the standard transition commands and state
getters are CSCP-callable methods of the FSM mixin (core/fsm.py, not under
src/); spec §4.2 lists them. -/
def fsm_cscp_commands : List String :=
  ["get_state", "get_status", "initialize", "launch", "start", "stop",
   "land", "interrupt", "recover", "reconfigure"]

/-- The command registry keys of a full Satellite instance. -/
def satellite_cscp_commands : List String :=
  src_cscp_commands ++ fsm_cscp_commands

/-- The normalization applied by `CommandTransmitter.get_message`
(cscp.py line 146): the incoming command string is lower-cased. -/
def get_message_msg (raw : String) : String := pyLower raw

/-- Command resolution: `_recv_cmds` looks the normalized name up in the
registry and dispatches to the method of that name; the resolved handler is
identified by its registry key. -/
def resolve_command (cmds : List String) (raw : String) : Option String :=
  if cmds.contains (get_message_msg raw) then some (get_message_msg raw) else none

/- ------------------------------------------------------------------ -/
/- FSM failure handling (core/error.py, core/satellite.py)             -/
/- ------------------------------------------------------------------ -/

/-- The satellite lifecycle states (spec §4.3; core/fsm.py is not under
src/, its state list is given by the spec). -/
inductive SatelliteState
  | NEW
  | initializing
  | INIT
  | launching
  | ORBIT
  | starting
  | RUN
  | stopping
  | landing
  | reconfiguring
  | interrupting
  | SAFE
  | recovering
  | ERROR
deriving DecidableEq, Repr

/-- Modelled from the spec: `fsm.failure` (core/fsm.py, not under src/)
drives the machine into ERROR; the failure transition is permitted from
every non-terminal state and is a no-op in ERROR (spec §3, §8). -/
def fsm_failure (_s : SatelliteState) : SatelliteState := .ERROR

/-- Observable outcome of a call through the `handle_error` decorator: the
value returned to the caller (or the exception propagating out of it), the
FSM state afterwards, and whether `_wrap_failure` was invoked. -/
structure HandleErrorOutcome where
  result : PyResult (Option String)
  fsm_state : SatelliteState
  wrap_failure_called : Bool
deriving DecidableEq, Repr

/-- The `handle_error` decorator from core/error.py applied to a wrapped
body with the given outcome: a normal return passes through; a
TransitionNotAllowed is re-raised as RuntimeError; any other exception
drives the FSM into ERROR via `fsm.failure` and `_wrap_failure` and makes
the wrapper return None. -/
def handle_error (st : SatelliteState) (body : PyResult String) : HandleErrorOutcome :=
  match body with
  | .ok s => { result := .ok (some s), fsm_state := st, wrap_failure_called := false }
  | .raised .TransitionNotAllowed =>
    { result := .raised .RuntimeError, fsm_state := st, wrap_failure_called := false }
  | .raised _ =>
    { result := .ok none, fsm_state := fsm_failure st, wrap_failure_called := true }

/- ------------------------------------------------------------------ -/
/- The stop wrapper (core/satellite.py, _wrap_stop)                    -/
/- ------------------------------------------------------------------ -/

/-- The acquisition context as `_wrap_stop` finds it: whether the stop
event object and the future exist, and how many seconds after the stop
signal the future resolves (none when `do_run` never observes the stop). -/
structure AcqContext where
  has_evt : Bool
  has_fut : Bool
  resolve_after : Option Nat
deriving DecidableEq, Repr

/-- `Future.result(timeout)` semantics from concurrent.futures: return once
the future resolves within the bound, raise TimeoutError otherwise. -/
def future_result (ctx : AcqContext) (timeout : Nat) : PyResult Unit :=
  match ctx.resolve_after with
  | some t => if t ≤ timeout then .ok () else .raised .TimeoutError
  | none => .raised .TimeoutError

/-- Body outcome of the stop wrapper together with the stop-event flag. -/
structure StopBodyOutcome where
  evt_set : Bool
  result : PyResult String
deriving DecidableEq, Repr

/-- The body of `_wrap_stop`: set the stop event when present, assert the
future exists, wait on it with timeout 10, then run `do_stopping`. -/
def wrap_stop_body (ctx : AcqContext) (do_stopping_reply : String) : StopBodyOutcome :=
  if ctx.has_fut = false then
    { evt_set := ctx.has_evt, result := .raised .AssertionError }
  else
    match future_result ctx 10 with
    | .ok _ => { evt_set := ctx.has_evt, result := .ok do_stopping_reply }
    | .raised e => { evt_set := ctx.has_evt, result := .raised e }

/-- `_wrap_stop` as seen by the FSM: its body run under `handle_error`. -/
def wrap_stop (st : SatelliteState) (ctx : AcqContext) (do_stopping_reply : String) :
    Bool × HandleErrorOutcome :=
  ((wrap_stop_body ctx do_stopping_reply).evt_set,
   handle_error st (wrap_stop_body ctx do_stopping_reply).result)

/- ------------------------------------------------------------------ -/
/- Configuration and the initialize/reconfigure wrappers               -/
/- ------------------------------------------------------------------ -/

/-- Modelled from the spec: `Configuration` (core/configuration.py, not
under src/) is a "key-value map with used-key tracking. Every lookup marks
a key as used; the set of unused keys is exposed after initialization"
(spec §3). Only the keys matter for the wrapper claims. -/
structure Configuration where
  keys : List String
  used_keys : List String
deriving DecidableEq, Repr

/-- `Configuration.get_unused_keys`: the keys never looked up. -/
def Configuration.get_unused_keys (c : Configuration) : List String :=
  c.keys.filter (fun k => decide (k ∉ c.used_keys))

/-- `Configuration.has_unused_values`: whether any key went unused. -/
def Configuration.has_unused_values (c : Configuration) : Bool :=
  ¬ c.get_unused_keys.isEmpty

/-- Modelled from the spec: `make_lowercase` (core/configuration.py, not
under src/) lower-cases the configuration keys before they are wrapped. -/
def make_lowercase (keys : List String) : List String :=
  keys.map pyLower

/-- Modelled from the spec: `Configuration.update` merges a new map into the
existing one, preserving the used-key tracking (spec §4.3). -/
def Configuration.update (c : Configuration) (new_keys : List String) : Configuration :=
  { c with keys := c.keys ++ new_keys.filter (fun k => decide (k ∉ c.keys)) }

/-- The device-specific hook (`do_initializing` or `do_reconfigure`): the
set of configuration keys it looks up and the reply string it returns. -/
structure DeviceHook where
  uses : List String
  reply : String
deriving DecidableEq, Repr

/-- Running the hook marks every key it looks up as used and yields its
reply string. -/
def run_hook (hook : DeviceHook) (cfg : Configuration) : Configuration × String :=
  ({ cfg with
      used_keys := cfg.used_keys ++ cfg.keys.filter (fun k => hook.uses.contains k) },
   hook.reply)

/-- Reply string plus warnings logged by a transition wrapper. -/
structure WrapOutcome where
  reply : String
  warnings : List String
deriving DecidableEq, Repr

/-- The unused-key reporting shared by `_wrap_initialize` (satellite.py
lines 174-179) and `_wrap_reconfigure` (lines 226-231): when unused values
exist, log one warning per unused key and append " IGNORED parameters: "
plus the comma-joined key names to the reply. -/
def augment_reply (init_msg : String) (cfg : Configuration) : WrapOutcome :=
  if cfg.has_unused_values then
    { reply := init_msg ++ " IGNORED parameters: "
        ++ String.intercalate "," cfg.get_unused_keys
      warnings := cfg.get_unused_keys.map
        (fun k => "Satellite ignored configuration value: " ++ k) }
  else
    { reply := init_msg, warnings := [] }

/-- The configuration as it stands after `_wrap_initialize` has built it
from the received map and run `do_initializing` on it. -/
def init_config (hook : DeviceHook) (config : List String) : Configuration :=
  (run_hook hook { keys := make_lowercase config, used_keys := [] }).1

/-- The configuration-consuming part of `_wrap_initialize`: build a fresh
`Configuration` from the lower-cased map, run the user hook, and augment
the reply with the unused keys. -/
def wrapInitialize (hook : DeviceHook) (config : List String) : WrapOutcome :=
  augment_reply (run_hook hook { keys := make_lowercase config, used_keys := [] }).2
    (init_config hook config)

/-- The configuration as it stands after `_wrap_reconfigure` has merged the
received map and run `do_reconfigure` on it. -/
def reconf_config (hook : DeviceHook) (cfg_before : Configuration)
    (config : List String) : Configuration :=
  (run_hook hook (cfg_before.update config)).1

/-- The configuration-consuming part of `_wrap_reconfigure`: merge the map
into the existing configuration, run the user hook, and augment the reply
with the unused keys. -/
def wrapReconfigure (hook : DeviceHook) (cfg_before : Configuration)
    (config : List String) : WrapOutcome :=
  augment_reply (run_hook hook (cfg_before.update config)).2
    (reconf_config hook cfg_before config)


/- ------------------------------------------------------------------ -/
/- Concrete example inputs used by the witness theorems                -/
/- ------------------------------------------------------------------ -/

/-- An OFFER for CONTROL from host 42 on port 23999. -/
def exampleOffer1 : CHIRPMessage :=
  { host_uuid := 42, serviceid := .CONTROL, msgtype := .OFFER
    from_address := "192.168.1.17", port := 23999 }

/-- A second OFFER with the same identity triple but another address. -/
def exampleOffer2 : CHIRPMessage :=
  { host_uuid := 42, serviceid := .CONTROL, msgtype := .OFFER
    from_address := "10.0.0.5", port := 23999 }

/-- A DEPART matching the identity of exampleOffer1. -/
def exampleDepart : CHIRPMessage :=
  { host_uuid := 42, serviceid := .CONTROL, msgtype := .DEPART
    from_address := "192.168.1.17", port := 23999 }

/-- A broadcaster with an empty cache and a CONTROL callback (handle 7). -/
def exampleBroadcaster : CHIRPBroadcaster :=
  { registered_services := [], discovered_services := []
    chirp_callbacks := [(.CONTROL, 7)], task_queue := [], log_warnings := [] }

/-- The broadcaster state after the first example OFFER was processed. -/
def exampleAfterOffer : CHIRPBroadcaster :=
  handleMessage exampleBroadcaster exampleOffer1


/- ------------------------------------------------------------------ -/
/- Helper lemmas about the CHIRP cache operations                      -/
/- ------------------------------------------------------------------ -/

theorem eqPy_comm (a b : DiscoveredService) : a.eqPy b = b.eqPy a := by
  simp only [DiscoveredService.eqPy]
  apply decide_eq_decide.mpr
  constructor <;> rintro ⟨h1, h2, h3⟩ <;> exact ⟨h1.symm, h2.symm, h3.symm⟩

theorem eqPy_refl (a : DiscoveredService) : a.eqPy a = true := by
  simp [DiscoveredService.eqPy]

theorem serviceOf_eqPy_congr (m1 m2 : CHIRPMessage) (t : DiscoveredService)
    (hU : m2.host_uuid = m1.host_uuid) (hS : m2.serviceid = m1.serviceid)
    (hP : m2.port = m1.port) :
    (serviceOf m2).eqPy t = (serviceOf m1).eqPy t := by
  simp [serviceOf, DiscoveredService.eqPy, hU, hS, hP]

theorem countMatching_eq_zero_of_not_contains (l : List DiscoveredService)
    (s : DiscoveredService) (h : listContainsPy l s = false) :
    countMatching l s = 0 := by
  induction l with
  | nil => rfl
  | cons t rest ih =>
    simp only [listContainsPy, List.any_cons, Bool.or_eq_false_iff] at h
    simp only [countMatching, List.filter_cons, h.1, List.length]
    exact ih h.2

theorem countMatching_pos_of_contains (l : List DiscoveredService)
    (s : DiscoveredService) (h : listContainsPy l s = true) :
    1 ≤ countMatching l s := by
  induction l with
  | nil => simp [listContainsPy] at h
  | cons t rest ih =>
    simp only [listContainsPy, List.any_cons, Bool.or_eq_true] at h
    cases hs : s.eqPy t with
    | true => simp [countMatching, List.filter_cons, hs]
    | false =>
      rw [hs] at h
      simp only [Bool.false_eq_true, false_or] at h
      have := ih h
      simp only [countMatching, List.filter_cons, hs, Bool.false_eq_true, if_false]
      simpa [countMatching] using this

theorem countMatching_append_single (l : List DiscoveredService)
    (s t : DiscoveredService) :
    countMatching (l ++ [t]) s =
      countMatching l s + (if s.eqPy t then 1 else 0) := by
  simp only [countMatching, List.filter_append]
  by_cases h : s.eqPy t = true <;> simp [h]

theorem contains_append_self (l : List DiscoveredService) (s : DiscoveredService) :
    listContainsPy (l ++ [s]) s = true := by
  simp [listContainsPy, List.any_append, eqPy_refl]

theorem removeFirst_length (l : List DiscoveredService) (s : DiscoveredService)
    (h : listContainsPy l s = true) :
    ∃ rest, listRemoveFirstPy l s = some rest ∧ rest.length + 1 = l.length := by
  induction l with
  | nil => simp [listContainsPy] at h
  | cons t rest ih =>
    by_cases hts : t.eqPy s = true
    · exact ⟨rest, by simp [listRemoveFirstPy, hts], rfl⟩
    · have hst : s.eqPy t = false := by
        rw [eqPy_comm]; exact Bool.eq_false_iff.mpr (fun hc => hts hc)
      simp only [listContainsPy, List.any_cons, hst, Bool.false_or] at h
      obtain ⟨r, hr, hlen⟩ := ih h
      refine ⟨t :: r, ?_, ?_⟩
      · simp [listRemoveFirstPy, hts, hr]
      · simp only [List.length_cons, ← hlen]

theorem removeFirst_none_of_not_contains (l : List DiscoveredService)
    (s : DiscoveredService) (h : listContainsPy l s = false) :
    listRemoveFirstPy l s = none := by
  induction l with
  | nil => rfl
  | cons t rest ih =>
    simp only [listContainsPy, List.any_cons, Bool.or_eq_false_iff] at h
    have hts : t.eqPy s = false := by rw [← eqPy_comm s t]; exact h.1
    simp [listRemoveFirstPy, hts, ih h.2]

theorem dictLookup_dictSet_self {α β : Type} [DecidableEq α]
    (d : List (α × β)) (k : α) (v : β) :
    dictLookup (dictSet d k v) k = some v := by
  induction d with
  | nil => simp [dictSet, dictLookup]
  | cons p rest ih =>
    obtain ⟨k2, v2⟩ := p
    by_cases h : k2 = k
    · simp [dictSet, h, dictLookup]
    · simp [dictSet, h, dictLookup, ih]

theorem dictLookup_dictSet_other {α β : Type} [DecidableEq α]
    (d : List (α × β)) (k other : α) (v : β) (h : other ≠ k) :
    dictLookup (dictSet d k v) other = dictLookup d other := by
  have hk : ¬ k = other := fun hh => h hh.symm
  induction d with
  | nil => simp [dictSet, dictLookup, hk]
  | cons p rest ih =>
    obtain ⟨k2, v2⟩ := p
    by_cases h2 : k2 = k
    · subst h2
      simp [dictSet, dictLookup, hk]
    · simp [dictSet, h2, dictLookup, ih]

/-- C9: register_request stores the callback as the single callback for the
service id, enqueues exactly one (callback, [service]) invocation per
already-cached service with that id, leaves the callbacks of other service
ids and the cache unchanged, and logs a warning exactly when a callback for
that id was already registered. -/
theorem claim_C9 (b : CHIRPBroadcaster) (serviceid : CHIRPServiceIdentifier)
    (callback : Nat) :
    dictLookup (register_request b serviceid callback).chirp_callbacks serviceid
        = some callback
    ∧ (register_request b serviceid callback).task_queue
        = b.task_queue
          ++ (get_discovered b serviceid).map (fun known => (callback, [known]))
    ∧ (∀ other, other ≠ serviceid →
        dictLookup (register_request b serviceid callback).chirp_callbacks other
          = dictLookup b.chirp_callbacks other)
    ∧ (register_request b serviceid callback).discovered_services
        = b.discovered_services
    ∧ (register_request b serviceid callback).log_warnings =
        (if (dictLookup b.chirp_callbacks serviceid).isSome then
          b.log_warnings ++ ["Overwriting CHIRP callback"]
        else b.log_warnings) := by
  refine ⟨?_, rfl, ?_, rfl, rfl⟩
  · exact dictLookup_dictSet_self b.chirp_callbacks serviceid callback
  · intro other hother
    exact dictLookup_dictSet_other b.chirp_callbacks serviceid other callback hother

/-- Witness for C9 at a concrete broadcaster: registering a HEARTBEAT
callback leaves the CONTROL callback unchanged. -/
theorem claim_C9_witness :
    dictLookup (register_request exampleBroadcaster .HEARTBEAT 9).chirp_callbacks
        .CONTROL
      = dictLookup exampleBroadcaster.chirp_callbacks .CONTROL :=
  (claim_C9 exampleBroadcaster .HEARTBEAT 9).2.2.1 .CONTROL (by decide)

/-- C10: a DEPART whose identity matches no cache entry leaves the whole
broadcaster state unchanged: nothing is removed and no callback task is
enqueued. -/
theorem claim_C10 (b : CHIRPBroadcaster) (msg : CHIRPMessage)
    (hty : msg.msgtype = CHIRPMessageType.DEPART)
    (hmem : listContainsPy b.discovered_services (serviceOf msg) = false) :
    handleMessage b msg = b := by
  simp only [handleMessage, hty]
  by_cases hp : msg.port ≠ 0
  · rw [if_pos hp]
    unfold _depart_service
    rw [removeFirst_none_of_not_contains _ _ hmem]
  · rw [if_neg hp]

/-- Witness for C10: a DEPART against an empty cache changes nothing. -/
theorem claim_C10_witness :
    handleMessage exampleBroadcaster exampleDepart = exampleBroadcaster :=
  claim_C10 exampleBroadcaster exampleDepart rfl (by decide)

/-- C4: a DEPART with non-zero port whose identity matches a cache entry
removes exactly one entry, and when a callback is registered for the
service id, enqueues exactly one invocation whose argument has alive set to
false (no task is enqueued without a registered callback). -/
theorem claim_C4 (b : CHIRPBroadcaster) (msg : CHIRPMessage)
    (hty : msg.msgtype = CHIRPMessageType.DEPART) (hport : msg.port ≠ 0)
    (hmem : listContainsPy b.discovered_services (serviceOf msg) = true) :
    (handleMessage b msg).discovered_services.length + 1
        = b.discovered_services.length
    ∧ (∀ cb, dictLookup b.chirp_callbacks msg.serviceid = some cb →
        (handleMessage b msg).task_queue
          = b.task_queue ++ [(cb, [departedOf msg])])
    ∧ (dictLookup b.chirp_callbacks msg.serviceid = none →
        (handleMessage b msg).task_queue = b.task_queue) := by
  obtain ⟨rest, hrem, hlen⟩ := removeFirst_length b.discovered_services (serviceOf msg) hmem
  have hmsg : handleMessage b msg = _depart_service b msg := by
    simp only [handleMessage, hty]
    rw [if_pos hport]
  rw [hmsg]
  unfold _depart_service
  rw [hrem]
  cases hl : dictLookup b.chirp_callbacks msg.serviceid with
  | none =>
    exact ⟨hlen, fun cb hcb => Option.noConfusion hcb, fun _ => rfl⟩
  | some cb0 =>
    refine ⟨hlen, ?_, fun hnone => Option.noConfusion hnone⟩
    intro cb hcb
    injection hcb with hcb
    subst hcb
    rfl

/-- Witness for C4 at a concrete cache holding the offered CONTROL service:
the matching DEPART empties the cache and enqueues the alive-false task. -/
theorem claim_C4_witness :
    (handleMessage exampleAfterOffer exampleDepart).discovered_services.length + 1
        = exampleAfterOffer.discovered_services.length
    ∧ (handleMessage exampleAfterOffer exampleDepart).task_queue
        = exampleAfterOffer.task_queue ++ [(7, [departedOf exampleDepart])] :=
  ⟨(claim_C4 exampleAfterOffer exampleDepart rfl (by decide) (by decide)).1,
   (claim_C4 exampleAfterOffer exampleDepart rfl (by decide) (by decide)).2.1 7 (by decide)⟩

theorem discover_noop_of_contains (b : CHIRPBroadcaster) (msg : CHIRPMessage)
    (h : listContainsPy b.discovered_services (serviceOf msg) = true) :
    _discover_service b msg = b := by
  unfold _discover_service
  rw [h]
  rfl

theorem contains_of_serviceOf_congr (l : List DiscoveredService)
    (m1 m2 : CHIRPMessage) (hU : m2.host_uuid = m1.host_uuid)
    (hS : m2.serviceid = m1.serviceid) (hP : m2.port = m1.port) :
    listContainsPy l (serviceOf m2) = listContainsPy l (serviceOf m1) := by
  unfold listContainsPy
  have hfun : (fun t => (serviceOf m2).eqPy t) = (fun t => (serviceOf m1).eqPy t) :=
    funext (fun t => serviceOf_eqPy_congr m1 m2 t hU hS hP)
  rw [hfun]

/-- C3: processing two OFFERs carrying the same identity triple — even with
differing address fields — leaves the second one a complete no-op, leaves
exactly one matching entry in the cache, and enqueues at most one task,
provided the starting cache held at most one matching entry (the invariant
the cache operations maintain). -/
theorem claim_C3 (b : CHIRPBroadcaster) (m1 m2 : CHIRPMessage)
    (ht1 : m1.msgtype = CHIRPMessageType.OFFER)
    (ht2 : m2.msgtype = CHIRPMessageType.OFFER)
    (hU : m2.host_uuid = m1.host_uuid) (hS : m2.serviceid = m1.serviceid)
    (hP : m2.port = m1.port)
    (hinv : countMatching b.discovered_services (serviceOf m1) ≤ 1) :
    handleMessage (handleMessage b m1) m2 = handleMessage b m1
    ∧ countMatching (handleMessage b m1).discovered_services (serviceOf m1) = 1
    ∧ (handleMessage b m1).task_queue.length ≤ b.task_queue.length + 1 := by
  have h1 : handleMessage b m1 = _discover_service b m1 := by
    simp only [handleMessage, ht1]
  have h2 : ∀ b2 : CHIRPBroadcaster, handleMessage b2 m2 = _discover_service b2 m2 := by
    intro b2
    simp only [handleMessage, ht2]
  cases hc : listContainsPy b.discovered_services (serviceOf m1) with
  | true =>
    have hb1 : _discover_service b m1 = b := discover_noop_of_contains b m1 hc
    have hcount : countMatching b.discovered_services (serviceOf m1) = 1 :=
      Nat.le_antisymm hinv (countMatching_pos_of_contains _ _ hc)
    have hc2 : listContainsPy b.discovered_services (serviceOf m2) = true := by
      rw [contains_of_serviceOf_congr b.discovered_services m1 m2 hU hS hP]
      exact hc
    refine ⟨?_, ?_, ?_⟩
    · rw [h1, hb1, h2]
      exact discover_noop_of_contains b m2 hc2
    · rw [h1, hb1]
      exact hcount
    · rw [h1, hb1]
      exact Nat.le_succ_of_le (Nat.le_refl _)
  | false =>
    have hz : countMatching b.discovered_services (serviceOf m1) = 0 :=
      countMatching_eq_zero_of_not_contains _ _ hc
    have hdisc : (_discover_service b m1).discovered_services
        = b.discovered_services ++ [serviceOf m1] := by
      unfold _discover_service
      rw [hc]
      cases dictLookup b.chirp_callbacks m1.serviceid <;> rfl
    have hcount1 : countMatching (_discover_service b m1).discovered_services
        (serviceOf m1) = 1 := by
      rw [hdisc, countMatching_append_single, hz, eqPy_refl]
      rfl
    have hc2 : listContainsPy (_discover_service b m1).discovered_services
        (serviceOf m2) = true := by
      rw [contains_of_serviceOf_congr _ m1 m2 hU hS hP, hdisc]
      exact contains_append_self b.discovered_services (serviceOf m1)
    refine ⟨?_, ?_, ?_⟩
    · rw [h1, h2]
      exact discover_noop_of_contains (_discover_service b m1) m2 hc2
    · rw [h1]
      exact hcount1
    · rw [h1]
      unfold _discover_service
      rw [hc]
      cases dictLookup b.chirp_callbacks m1.serviceid with
      | none => exact Nat.le_succ_of_le (Nat.le_refl _)
      | some cb => simp

/-- Witness for C3: the two example OFFERs with equal identity but
different addresses leave a single CONTROL entry in the cache. -/
theorem claim_C3_witness :
    handleMessage (handleMessage exampleBroadcaster exampleOffer1) exampleOffer2
        = handleMessage exampleBroadcaster exampleOffer1
    ∧ countMatching (handleMessage exampleBroadcaster exampleOffer1).discovered_services
        (serviceOf exampleOffer1) = 1 :=
  ⟨(claim_C3 exampleBroadcaster exampleOffer1 exampleOffer2 rfl rfl rfl rfl rfl
      (by decide)).1,
   (claim_C3 exampleBroadcaster exampleOffer1 exampleOffer2 rfl rfl rfl rfl rfl
      (by decide)).2.1⟩

/-- C1 counterexample: the claim that every exception raised inside a
transition wrapper drives the FSM into ERROR and is never re-raised fails
for TransitionNotAllowed: `handle_error` (error.py lines 22-25) re-raises
it as RuntimeError and leaves the FSM state untouched, with the failure
handler never invoked. -/
theorem claim_C1_counterexample :
    (handle_error SatelliteState.ORBIT (PyResult.raised PyExc.TransitionNotAllowed)).result
        = PyResult.raised PyExc.RuntimeError
    ∧ (handle_error SatelliteState.ORBIT (PyResult.raised PyExc.TransitionNotAllowed)).fsm_state
        ≠ SatelliteState.ERROR
    ∧ (handle_error SatelliteState.ORBIT (PyResult.raised PyExc.TransitionNotAllowed)).wrap_failure_called
        = false := by
  refine ⟨rfl, ?_, rfl⟩
  decide

/-- C1 amended: for every exception kind other than TransitionNotAllowed,
any wrapper decorated with `handle_error` (all six transition wrappers)
drives the FSM into ERROR via `fsm.failure` and `_wrap_failure` and returns
None normally instead of re-raising; a TransitionNotAllowed from the body
is re-raised as a RuntimeError without touching the FSM. -/
theorem claim_C1_amended (st : SatelliteState) (e : PyExc)
    (h : e ≠ PyExc.TransitionNotAllowed) :
    handle_error st (PyResult.raised e) =
      { result := PyResult.ok none, fsm_state := SatelliteState.ERROR
        wrap_failure_called := true } := by
  cases e
  case TransitionNotAllowed => exact absurd rfl h
  all_goals rfl

/-- Witness for the amended C1 at a concrete exception and state. -/
theorem claim_C1_witness :
    handle_error SatelliteState.RUN (PyResult.raised PyExc.TimeoutError) =
      { result := PyResult.ok none, fsm_state := SatelliteState.ERROR
        wrap_failure_called := true } :=
  claim_C1_amended SatelliteState.RUN PyExc.TimeoutError (by decide)

/-- C2: for every request that passes the verb check, the command lookup and
the precondition gate, the reply verb is exactly the mapping the spec
states of the handler outcome, the handler is invoked, and any
otherwise-unclassified failure puts its representation into the reply. -/
theorem claim_C2 (env : CommandEnv) (req : IncomingRequest)
    (hverb : req.msg_verb = CSCPMessageVerb.REQUEST)
    (hcmd : req.msg ∈ env.cmds)
    (hgate : env.allowed ≠ some false) :
    (recv_one env req).reply_verb = claimed_verb env.outcome
    ∧ (recv_one env req).handler_called = true
    ∧ (∀ r, env.outcome = HandlerOutcome.raises PyExc.OtherError r →
        (recv_one env req).reply_text = "Exception: " ++ r) := by
  obtain ⟨cmds, allowed, outcome⟩ := env
  simp only at hcmd hgate
  cases outcome with
  | ret text =>
    cases text with
    | none => simp [recv_one, claimed_verb, hverb, hcmd, hgate]
    | some t => simp [recv_one, claimed_verb, hverb, hcmd, hgate]
  | raises exc r =>
    cases exc <;> simp [recv_one, claimed_verb, hverb, hcmd, hgate]

/-- Witness for C2: a handler returning text yields a SUCCESS reply. -/
theorem claim_C2_witness :
    (recv_one
        { cmds := ["get_state"], allowed := none
          outcome := HandlerOutcome.ret (some "ORBIT") }
        { msg_verb := CSCPMessageVerb.REQUEST, msg := "get_state" }).reply_verb
      = claimed_verb (HandlerOutcome.ret (some "ORBIT")) :=
  (claim_C2
    { cmds := ["get_state"], allowed := none
      outcome := HandlerOutcome.ret (some "ORBIT") }
    { msg_verb := CSCPMessageVerb.REQUEST, msg := "get_state" }
    rfl (by simp) (by simp)).1

/-- C5: the stop wrapper sets the acquisition stop event and waits on the
future with a 10-second bound; whenever the future does not resolve within
10 seconds, the stop returns None instead of the do_stopping reply and the
FSM transitions to ERROR. -/
theorem claim_C5 (st : SatelliteState) (ctx : AcqContext) (reply : String)
    (hevt : ctx.has_evt = true) (hfut : ctx.has_fut = true)
    (hslow : ∀ t, ctx.resolve_after = some t → 10 < t) :
    (wrap_stop st ctx reply).1 = true
    ∧ (wrap_stop st ctx reply).2 =
        { result := PyResult.ok none, fsm_state := SatelliteState.ERROR
          wrap_failure_called := true } := by
  have hbody : wrap_stop_body ctx reply =
      { evt_set := true, result := PyResult.raised PyExc.TimeoutError } := by
    unfold wrap_stop_body future_result
    rw [hfut]
    cases hra : ctx.resolve_after with
    | none => simp [hevt]
    | some t =>
      have ht := hslow t hra
      simp [hevt, Nat.not_le.mpr ht]
  unfold wrap_stop
  rw [hbody]
  exact ⟨rfl, rfl⟩

/-- Witness for C5: a do_run that never observes the stop event. -/
theorem claim_C5_witness :
    (wrap_stop SatelliteState.stopping
        { has_evt := true, has_fut := true, resolve_after := none }
        "Acquisition stopped.").2 =
      { result := PyResult.ok none, fsm_state := SatelliteState.ERROR
        wrap_failure_called := true } :=
  (claim_C5 SatelliteState.stopping
    { has_evt := true, has_fut := true, resolve_after := none }
    "Acquisition stopped." rfl rfl (fun _ ht => Option.noConfusion ht)).2

theorem augment_reply_spec (msg : String) (cfg : Configuration) :
    (augment_reply msg cfg).reply =
      (if cfg.get_unused_keys.isEmpty then msg
       else msg ++ " IGNORED parameters: "
              ++ String.intercalate "," cfg.get_unused_keys)
    ∧ (augment_reply msg cfg).warnings =
      (if cfg.get_unused_keys.isEmpty then ([] : List String)
       else cfg.get_unused_keys.map
         (fun k => "Satellite ignored configuration value: " ++ k)) := by
  unfold augment_reply Configuration.has_unused_values
  by_cases h : cfg.get_unused_keys.isEmpty <;> simp [h]

/-- C6: after either configuration-consuming transition, the wrapper's reply
equals the user hook's reply with " IGNORED parameters: " and the
comma-joined unused key names appended when unused keys exist — and one
warning is logged per unused key — while a fully-used configuration leaves
the hook's reply unchanged and logs nothing. -/
theorem claim_C6 (hook : DeviceHook) (config : List String)
    (cfg_before : Configuration) :
    ((wrapInitialize hook config).reply =
      (if (init_config hook config).get_unused_keys.isEmpty then hook.reply
       else hook.reply ++ " IGNORED parameters: "
          ++ String.intercalate "," (init_config hook config).get_unused_keys))
    ∧ ((wrapInitialize hook config).warnings =
      (if (init_config hook config).get_unused_keys.isEmpty then ([] : List String)
       else (init_config hook config).get_unused_keys.map
          (fun k => "Satellite ignored configuration value: " ++ k)))
    ∧ ((wrapReconfigure hook cfg_before config).reply =
      (if (reconf_config hook cfg_before config).get_unused_keys.isEmpty then hook.reply
       else hook.reply ++ " IGNORED parameters: "
          ++ String.intercalate ","
              (reconf_config hook cfg_before config).get_unused_keys))
    ∧ ((wrapReconfigure hook cfg_before config).warnings =
      (if (reconf_config hook cfg_before config).get_unused_keys.isEmpty then ([] : List String)
       else (reconf_config hook cfg_before config).get_unused_keys.map
          (fun k => "Satellite ignored configuration value: " ++ k))) :=
  ⟨(augment_reply_spec hook.reply (init_config hook config)).1,
   (augment_reply_spec hook.reply (init_config hook config)).2,
   (augment_reply_spec hook.reply (reconf_config hook cfg_before config)).1,
   (augment_reply_spec hook.reply (reconf_config hook cfg_before config)).2⟩

/-- C7: the command registry of the full satellite stores lower-cased names
(each stored name is a fixed point of str.lower), the receiver resolves an
incoming name after lower-casing it so resolution is case-insensitive, and
in particular GET_STATE, get_state and Get_State all resolve to the
get_state handler. -/
theorem claim_C7 :
    satellite_cscp_commands.all (fun c => pyLower c == c) = true
    ∧ (∀ v w : String, pyLower v = pyLower w →
        resolve_command satellite_cscp_commands v
          = resolve_command satellite_cscp_commands w)
    ∧ resolve_command satellite_cscp_commands "GET_STATE" = some "get_state"
    ∧ resolve_command satellite_cscp_commands "get_state" = some "get_state"
    ∧ resolve_command satellite_cscp_commands "Get_State" = some "get_state" := by
  refine ⟨?_, ?_, ?_, ?_, ?_⟩
  · rfl
  · intro v w h
    unfold resolve_command get_message_msg
    rw [h]
  · rfl
  · rfl
  · rfl

/-- Witness for C7: two mixed-case spellings resolve identically. -/
theorem claim_C7_witness :
    resolve_command satellite_cscp_commands "GET_state"
      = resolve_command satellite_cscp_commands "get_STATE" :=
  claim_C7.2.1 "GET_state" "get_STATE" rfl

/-- C8: with verb and lookup passed, a present `_X_is_allowed` sibling
returning false suppresses the handler and replies INVALID with the exact
text "Command not allowed (in current state)", while an absent sibling lets
the handler run. -/
theorem claim_C8 (env : CommandEnv) (req : IncomingRequest)
    (hverb : req.msg_verb = CSCPMessageVerb.REQUEST)
    (hcmd : req.msg ∈ env.cmds) :
    (env.allowed = some false →
      recv_one env req =
        { reply_text := "Command not allowed (in current state)"
          reply_verb := CSCPMessageVerb.INVALID, handler_called := false })
    ∧ (env.allowed = none → (recv_one env req).handler_called = true) := by
  obtain ⟨cmds, allowed, outcome⟩ := env
  simp only at hcmd
  constructor
  · intro hgate
    simp only at hgate
    subst hgate
    simp [recv_one, hverb, hcmd]
  · intro hgate
    simp only at hgate
    subst hgate
    cases outcome with
    | ret text => cases text <;> simp [recv_one, hverb, hcmd]
    | raises exc r => cases exc <;> simp [recv_one, hverb, hcmd]

/-- Witness for C8: a gated stop request is denied with INVALID. -/
theorem claim_C8_witness :
    recv_one
        { cmds := ["stop"], allowed := some false
          outcome := HandlerOutcome.ret (some "ignored") }
        { msg_verb := CSCPMessageVerb.REQUEST, msg := "stop" } =
      { reply_text := "Command not allowed (in current state)"
        reply_verb := CSCPMessageVerb.INVALID, handler_called := false } :=
  (claim_C8
    { cmds := ["stop"], allowed := some false
      outcome := HandlerOutcome.ret (some "ignored") }
    { msg_verb := CSCPMessageVerb.REQUEST, msg := "stop" }
    rfl (by simp)).1 rfl

theorem countMatching_congr_of_eqPy (l : List DiscoveredService)
    (s t : DiscoveredService) (h : s.eqPy t = true) :
    countMatching l s = countMatching l t := by
  unfold countMatching
  have hfun : (fun x => s.eqPy x) = (fun x => t.eqPy x) := by
    funext x
    unfold DiscoveredService.eqPy at h ⊢
    obtain ⟨h1, h2, h3⟩ := of_decide_eq_true h
    rw [h1, h2, h3]
  rw [hfun]

theorem countMatching_le_of_removeFirst (l rest : List DiscoveredService)
    (s t : DiscoveredService) (h : listRemoveFirstPy l t = some rest) :
    countMatching rest s ≤ countMatching l s := by
  induction l generalizing rest with
  | nil => cases h
  | cons x xs ih =>
    unfold listRemoveFirstPy at h
    cases hx : DiscoveredService.eqPy x t with
    | true =>
      rw [hx] at h
      simp only [if_true] at h
      injection h with h
      subst h
      unfold countMatching
      rw [List.filter_cons]
      by_cases hsx : s.eqPy x = true <;> simp [hsx]
    | false =>
      rw [hx] at h
      simp only [Bool.false_eq_true, if_false] at h
      cases hrec : listRemoveFirstPy xs t with
      | none => rw [hrec] at h; cases h
      | some r =>
        rw [hrec] at h
        have hxr : x :: r = rest := Option.some.inj h
        subst hxr
        unfold countMatching
        rw [List.filter_cons, List.filter_cons]
        by_cases hsx : s.eqPy x = true
        · simp only [hsx, if_true, List.length_cons]
          exact Nat.succ_le_succ (ih r hrec)
        · simp only [hsx, Bool.false_eq_true, if_false]
          exact ih r hrec

/-- The listener body maintains the at-most-one-matching-entry invariant of
the discovery cache that claim C3 relies on: inserted services are absent
beforehand and DEPART only removes. -/
theorem handleMessage_preserves_invariant (b : CHIRPBroadcaster) (msg : CHIRPMessage)
    (s : DiscoveredService)
    (h : countMatching b.discovered_services s ≤ 1) :
    countMatching (handleMessage b msg).discovered_services s ≤ 1 := by
  unfold handleMessage
  cases msg.msgtype with
  | REQUEST => exact h
  | OFFER =>
    unfold _discover_service
    cases hc : listContainsPy b.discovered_services (serviceOf msg) with
    | true => simpa using h
    | false =>
      have hz : countMatching b.discovered_services (serviceOf msg) = 0 :=
        countMatching_eq_zero_of_not_contains _ _ hc
      have key : countMatching (b.discovered_services ++ [serviceOf msg]) s ≤ 1 := by
        rw [countMatching_append_single]
        cases hsm : s.eqPy (serviceOf msg) with
        | false => simpa [hsm] using Nat.le_trans h (Nat.le_refl 1)
        | true =>
          have := countMatching_congr_of_eqPy b.discovered_services s (serviceOf msg) hsm
          rw [this, hz]
          simp [hsm]
      cases dictLookup b.chirp_callbacks msg.serviceid <;> simpa using key
  | DEPART =>
    by_cases hp : msg.port ≠ 0
    · rw [if_pos hp]
      unfold _depart_service
      cases hrem : listRemoveFirstPy b.discovered_services (serviceOf msg) with
      | none => exact h
      | some rest =>
        have hle := countMatching_le_of_removeFirst b.discovered_services rest s
          (serviceOf msg) hrem
        cases dictLookup b.chirp_callbacks msg.serviceid <;>
          exact Nat.le_trans hle h
    · rw [if_neg hp]
      exact h
